import Mathlib

/-!
Shallow embedding of the policy-based financial calculator.

The repository has three source files under `src/`: the C API wrapper
`lib/src/calculator_c_api.cpp`, its header `lib/include/calculator_c_api.h`,
and the demonstration driver `src/main.cpp`.  The core headers
`Calculator.hpp` and `CalculationPolicies.hpp` (the three calculation
policies and the generic host) are referenced by the wrapper but are not
present under `src/`; the policy `calculate` operations below are therefore
modelled from the spec (sections 4.1 - 4.3), as marked on each definition.

C++ `double` arithmetic is modelled as exact rational arithmetic (`ℚ`);
C++ `int` is modelled as `ℤ` and `size_t` as `ℕ`.  Pointers are modelled
as `Option`: `none` is a null pointer, `some x` is a pointer to a cell
currently holding `x`.  A C++ exception of type `std::invalid_argument`
is modelled as `Except.error (CalcError.invalidInput msg)` where `msg`
is the string `what()` reports.
-/

/-- Error kind thrown by policy validation (`InvalidInput` in the spec),
carrying the human-readable message. -/
inductive CalcError where
  | invalidInput : String → CalcError
deriving DecidableEq, Repr

instance {ε α : Type} [DecidableEq ε] [DecidableEq α] : DecidableEq (Except ε α)
  | Except.ok a, Except.ok b => decidable_of_iff (a = b) (by simp)
  | Except.ok _, Except.error _ => isFalse (by simp)
  | Except.error _, Except.ok _ => isFalse (by simp)
  | Except.error a, Except.error b => decidable_of_iff (a = b) (by simp)

/-- Modelled from the spec: section 4.1 algorithm of `PresentValuePolicy`
(`CalculationPolicies.hpp` is not under `src/`).  The sequential
left-to-right accumulation loop: `t` is the 1-indexed period of the head
cash flow, `acc` the running sum; each step adds
`cash_flow / (1 + discount_rate) ^ t` and moves to the next period. -/
def pvAccum (discount_rate : ℚ) : List ℚ → ℕ → ℚ → ℚ
  | [], _, acc => acc
  | cf :: rest, t, acc => pvAccum discount_rate rest (t + 1) (acc + cf / (1 + discount_rate) ^ t)

/-- Modelled from the spec: section 4.1 contract of `PresentValuePolicy.calculate`
(`CalculationPolicies.hpp` is not under `src/`): reject an empty cash-flow
sequence, then a discount rate `≤ -1`, otherwise return the sequential
accumulation of `cash_flows[t] / (1 + discount_rate)^t` for `t = 1..N`. -/
def PresentValuePolicy.calculate (discount_rate : ℚ) (cash_flows : List ℚ) :
    Except CalcError ℚ :=
  if cash_flows.isEmpty then
    Except.error (CalcError.invalidInput "cash flows cannot be empty")
  else if discount_rate ≤ -1 then
    Except.error (CalcError.invalidInput "discount rate must be greater than -1")
  else
    Except.ok (pvAccum discount_rate cash_flows 1 0)

/-- Modelled from the spec: section 4.2 contract of `FutureValuePolicy.calculate`
(`CalculationPolicies.hpp` is not under `src/`): reject a negative principal,
an interest rate `≤ -1`, and a non-positive period count, otherwise return
`principal * (1 + interest_rate) ^ periods` (integer exponent on a real base). -/
def FutureValuePolicy.calculate (principal : ℚ) (interest_rate : ℚ) (periods : ℤ) :
    Except CalcError ℚ :=
  if principal < 0 then
    Except.error (CalcError.invalidInput "principal cannot be negative")
  else if interest_rate ≤ -1 then
    Except.error (CalcError.invalidInput "interest rate must be greater than -1")
  else if periods ≤ 0 then
    Except.error (CalcError.invalidInput "periods must be positive")
  else
    Except.ok (principal * (1 + interest_rate) ^ periods)

/-- Modelled from the spec: section 4.3 contract of
`InterestRateConversionPolicy.calculate` (`CalculationPolicies.hpp` is not
under `src/`): reject a non-positive period count, then a nominal rate that
makes the compounding base `1 + nominal_rate / compounding_periods`
non-positive (the spec leaves this second message an implementation
choice), otherwise return
`(1 + nominal_rate / compounding_periods) ^ compounding_periods - 1`. -/
def InterestRateConversionPolicy.calculate (nominal_rate : ℚ) (compounding_periods : ℤ) :
    Except CalcError ℚ :=
  if compounding_periods ≤ 0 then
    Except.error (CalcError.invalidInput "compounding periods must be positive")
  else if 1 + nominal_rate / (compounding_periods : ℚ) ≤ 0 then
    Except.error (CalcError.invalidInput "nominal rate makes the compounding base non-positive")
  else
    Except.ok ((1 + nominal_rate / (compounding_periods : ℚ)) ^ compounding_periods - 1)

/-- Wrapper state behind a `PVCalculatorHandle` (`calculator_c_api.cpp`,
`struct PVCalculator_t`).  `Calculator<PresentValuePolicy>` is stateless,
so only the `last_error` string remains. -/
structure PVCalculator_t where
  last_error : String
deriving DecidableEq, Repr

/-- Wrapper state behind an `FVCalculatorHandle` (`calculator_c_api.cpp`,
`struct FVCalculator_t`). -/
structure FVCalculator_t where
  last_error : String
deriving DecidableEq, Repr

/-- Wrapper state behind an `IRCalculatorHandle` (`calculator_c_api.cpp`,
`struct IRCalculator_t`). -/
structure IRCalculator_t where
  last_error : String
deriving DecidableEq, Repr

/-- `pv_calculator_create` (`calculator_c_api.cpp`): a fresh handle whose
`last_error` is the default-constructed empty string.  The `nullptr`
branch only models allocation failure, which the embedding ignores. -/
def pv_calculator_create : Option PVCalculator_t := some ⟨""⟩

/-- `fv_calculator_create` (`calculator_c_api.cpp`). -/
def fv_calculator_create : Option FVCalculator_t := some ⟨""⟩

/-- `ir_calculator_create` (`calculator_c_api.cpp`). -/
def ir_calculator_create : Option IRCalculator_t := some ⟨""⟩

/-- `pv_calculator_calculate` (`calculator_c_api.cpp`).  Arguments mirror the
C signature; the returned triple is (status code, handle state after the
call, contents of the `result` cell after the call).  The C array read
`std::vector<double> cf_vec(cash_flows, cash_flows + n_cash_flows)` is
modelled by `cfs.take n_cash_flows` on the list behind the pointer. -/
def pv_calculator_calculate («calc» : Option PVCalculator_t) (discount_rate : ℚ)
    (cash_flows : Option (List ℚ)) (n_cash_flows : ℕ) (result : Option ℚ) :
    Int × Option PVCalculator_t × Option ℚ :=
  match «calc» with
  | none => (-1, none, result)
  | some _ =>
    match cash_flows, result with
    | some cfs, some res =>
      if n_cash_flows = 0 then
        (-1, some ⟨"Invalid arguments: null pointer or empty cash flows"⟩, some res)
      else
        match PresentValuePolicy.calculate discount_rate (cfs.take n_cash_flows) with
        | Except.ok v => (0, some ⟨""⟩, some v)
        | Except.error (CalcError.invalidInput msg) => (-1, some ⟨msg⟩, some res)
    | _, _ =>
      (-1, some ⟨"Invalid arguments: null pointer or empty cash flows"⟩, result)

/-- `fv_calculator_calculate` (`calculator_c_api.cpp`). -/
def fv_calculator_calculate («calc» : Option FVCalculator_t) (principal : ℚ)
    (interest_rate : ℚ) (periods : ℤ) (result : Option ℚ) :
    Int × Option FVCalculator_t × Option ℚ :=
  match «calc» with
  | none => (-1, none, result)
  | some _ =>
    match result with
    | some res =>
      match FutureValuePolicy.calculate principal interest_rate periods with
      | Except.ok v => (0, some ⟨""⟩, some v)
      | Except.error (CalcError.invalidInput msg) => (-1, some ⟨msg⟩, some res)
    | none =>
      (-1, some ⟨"Invalid arguments: null pointer"⟩, none)

/-- `ir_calculator_calculate` (`calculator_c_api.cpp`). -/
def ir_calculator_calculate («calc» : Option IRCalculator_t) (nominal_rate : ℚ)
    (compounding_periods : ℤ) (result : Option ℚ) :
    Int × Option IRCalculator_t × Option ℚ :=
  match «calc» with
  | none => (-1, none, result)
  | some _ =>
    match result with
    | some res =>
      match InterestRateConversionPolicy.calculate nominal_rate compounding_periods with
      | Except.ok v => (0, some ⟨""⟩, some v)
      | Except.error (CalcError.invalidInput msg) => (-1, some ⟨msg⟩, some res)
    | none =>
      (-1, some ⟨"Invalid arguments: null pointer"⟩, none)

/-- `pv_calculator_get_error` (`calculator_c_api.cpp`). -/
def pv_calculator_get_error («calc» : Option PVCalculator_t) : String :=
  match «calc» with
  | none => "Invalid calculator handle"
  | some c => c.last_error

/-- `fv_calculator_get_error` (`calculator_c_api.cpp`). -/
def fv_calculator_get_error («calc» : Option FVCalculator_t) : String :=
  match «calc» with
  | none => "Invalid calculator handle"
  | some c => c.last_error

/-- `ir_calculator_get_error` (`calculator_c_api.cpp`). -/
def ir_calculator_get_error («calc» : Option IRCalculator_t) : String :=
  match «calc» with
  | none => "Invalid calculator handle"
  | some c => c.last_error

/-- C6: with annual compounding (`compounding_periods = 1`) the
interest-rate-conversion policy returns exactly the nominal rate:
`calculate(0.06, 1) = 0.06`, an equality, not an approximation (doubles
are modelled as exact rationals, where `(1 + 0.06/1)^1 - 1 = 0.06`
holds on the nose). -/
theorem ir_annual_compounding_exact :
    InterestRateConversionPolicy.calculate (6/100) 1 = Except.ok (6/100) := by
  simp only [InterestRateConversionPolicy.calculate]
  norm_num

/-- C2: for `principal ≥ 0`, `interest_rate > -1` and `periods > 0` the
future-value policy returns `principal * (1 + interest_rate) ^ periods`,
and the concrete scenario `FV(1000, 0.05, 10)` is within `0.01` of
`1628.89`. -/
theorem fv_calculate_formula :
    (∀ (p r : ℚ) (n : ℤ), 0 ≤ p → -1 < r → 0 < n →
        FutureValuePolicy.calculate p r n = Except.ok (p * (1 + r) ^ n)) ∧
    (∃ v : ℚ, FutureValuePolicy.calculate 1000 (5/100) 10 = Except.ok v ∧
        |v - 162889/100| < 1/100) := by
  constructor
  · intro p r n hp hr hn
    have h1 : ¬ p < 0 := not_lt.mpr hp
    have h2 : ¬ r ≤ -1 := not_le.mpr hr
    have h3 : ¬ n ≤ 0 := not_le.mpr hn
    simp [FutureValuePolicy.calculate, h1, h2, h3]
  · refine ⟨16679880978201/10240000000, ?_, ?_⟩
    · simp only [FutureValuePolicy.calculate]
      norm_num
    · rw [abs_lt]
      constructor <;> norm_num

/-- Closed witness for `fv_calculate_formula`: the hypotheses hold at
`principal = 1000`, `rate = 0.05`, `periods = 10`, and the formula part
applies there. -/
theorem fv_calculate_formula_witness :
    (0:ℚ) ≤ 1000 ∧ (-1:ℚ) < 5/100 ∧ (0:ℤ) < 10 ∧
    FutureValuePolicy.calculate 1000 (5/100) 10 =
      Except.ok (1000 * (1 + 5/100) ^ (10:ℤ)) :=
  ⟨by norm_num, by norm_num, by norm_num,
    fv_calculate_formula.1 1000 (5/100) 10 (by norm_num) (by norm_num) (by norm_num)⟩

/-- C3: for `compounding_periods > 0` and a positive compounding base the
interest-rate-conversion policy returns
`(1 + nominal_rate / compounding_periods) ^ compounding_periods - 1`,
and the concrete scenario `IR(0.12, 12)` is within `0.00001` of `0.12683`. -/
theorem ir_calculate_formula :
    (∀ (nr : ℚ) (m : ℤ), 0 < m → 0 < 1 + nr / (m:ℚ) →
        InterestRateConversionPolicy.calculate nr m =
          Except.ok ((1 + nr / (m:ℚ)) ^ m - 1)) ∧
    (∃ v : ℚ, InterestRateConversionPolicy.calculate (12/100) 12 = Except.ok v ∧
        |v - 12683/100000| < 1/100000) := by
  constructor
  · intro nr m hm hbase
    have h1 : ¬ m ≤ 0 := not_le.mpr hm
    have h2 : ¬ 1 + nr / (m:ℚ) ≤ 0 := not_le.mpr hbase
    simp [InterestRateConversionPolicy.calculate, h1, h2]
  · refine ⟨(101/100:ℚ) ^ (12:ℕ) - 1, ?_, ?_⟩
    · simp only [InterestRateConversionPolicy.calculate]
      norm_num
    · rw [abs_lt]
      constructor <;> norm_num

/-- Closed witness for `ir_calculate_formula`: the hypotheses hold at
`nominal_rate = 0.12`, `compounding_periods = 12`, and the formula part
applies there. -/
theorem ir_calculate_formula_witness :
    (0:ℤ) < 12 ∧ (0:ℚ) < 1 + (12/100) / ((12:ℤ):ℚ) ∧
    InterestRateConversionPolicy.calculate (12/100) 12 =
      Except.ok ((1 + (12/100) / ((12:ℤ):ℚ)) ^ (12:ℤ) - 1) :=
  ⟨by norm_num, by norm_num,
    ir_calculate_formula.1 (12/100) 12 (by norm_num) (by norm_num)⟩

/-- C4: each policy rejects exactly its out-of-range inputs with the stated
`InvalidInput` message: the present-value policy rejects an empty cash-flow
sequence ("cash flows cannot be empty") for every rate and a rate `≤ -1`
on a non-empty sequence; the future-value policy rejects a negative
principal ("principal cannot be negative"); the interest-rate-conversion
policy rejects a non-positive period count ("compounding periods must be
positive"); and each policy succeeds when all of its preconditions hold
("only then"). -/
theorem policies_boundary_rejection :
    (∀ r : ℚ, PresentValuePolicy.calculate r [] =
        Except.error (CalcError.invalidInput "cash flows cannot be empty")) ∧
    (∀ (r : ℚ) (cfs : List ℚ), cfs ≠ [] → r ≤ -1 →
        PresentValuePolicy.calculate r cfs =
          Except.error (CalcError.invalidInput "discount rate must be greater than -1")) ∧
    (∀ (p r : ℚ) (n : ℤ), p < 0 →
        FutureValuePolicy.calculate p r n =
          Except.error (CalcError.invalidInput "principal cannot be negative")) ∧
    (∀ (nr : ℚ) (m : ℤ), m ≤ 0 →
        InterestRateConversionPolicy.calculate nr m =
          Except.error (CalcError.invalidInput "compounding periods must be positive")) ∧
    (∀ (r : ℚ) (cfs : List ℚ), cfs ≠ [] → -1 < r →
        ∃ v, PresentValuePolicy.calculate r cfs = Except.ok v) ∧
    (∀ (p r : ℚ) (n : ℤ), 0 ≤ p → -1 < r → 0 < n →
        ∃ v, FutureValuePolicy.calculate p r n = Except.ok v) ∧
    (∀ (nr : ℚ) (m : ℤ), 0 < m → 0 < 1 + nr / (m:ℚ) →
        ∃ v, InterestRateConversionPolicy.calculate nr m = Except.ok v) := by
  refine ⟨?_, ?_, ?_, ?_, ?_, ?_, ?_⟩
  · intro r
    simp [PresentValuePolicy.calculate]
  · intro r cfs hne hr
    simp [PresentValuePolicy.calculate, List.isEmpty_iff, hne, hr]
  · intro p r n hp
    simp [FutureValuePolicy.calculate, hp]
  · intro nr m hm
    simp [InterestRateConversionPolicy.calculate, hm]
  · intro r cfs hne hr
    have h2 : ¬ r ≤ -1 := not_le.mpr hr
    exact ⟨pvAccum r cfs 1 0, by simp [PresentValuePolicy.calculate, List.isEmpty_iff, hne, h2]⟩
  · intro p r n hp hr hn
    have h1 : ¬ p < 0 := not_lt.mpr hp
    have h2 : ¬ r ≤ -1 := not_le.mpr hr
    have h3 : ¬ n ≤ 0 := not_le.mpr hn
    exact ⟨p * (1 + r) ^ n, by simp [FutureValuePolicy.calculate, h1, h2, h3]⟩
  · intro nr m hm hbase
    have h1 : ¬ m ≤ 0 := not_le.mpr hm
    have h2 : ¬ 1 + nr / (m:ℚ) ≤ 0 := not_le.mpr hbase
    exact ⟨(1 + nr / (m:ℚ)) ^ m - 1, by simp [InterestRateConversionPolicy.calculate, h1, h2]⟩

/-- Closed witness for `policies_boundary_rejection`: the spec's boundary
examples `PV(r, [])` (at `r = 0.05`), `PV(-1.0, [100])`, `FV(-1.0, 0.05, 10)`
and `IR(0.12, 0)` all discharge the hypotheses of the respective conjuncts. -/
theorem policies_boundary_rejection_witness :
    (PresentValuePolicy.calculate (5/100) [] =
        Except.error (CalcError.invalidInput "cash flows cannot be empty")) ∧
    (([100] : List ℚ) ≠ [] ∧ (-1:ℚ) ≤ -1 ∧
      PresentValuePolicy.calculate (-1) [100] =
        Except.error (CalcError.invalidInput "discount rate must be greater than -1")) ∧
    ((-1:ℚ) < 0 ∧
      FutureValuePolicy.calculate (-1) (5/100) 10 =
        Except.error (CalcError.invalidInput "principal cannot be negative")) ∧
    ((0:ℤ) ≤ 0 ∧
      InterestRateConversionPolicy.calculate (12/100) 0 =
        Except.error (CalcError.invalidInput "compounding periods must be positive")) :=
  ⟨policies_boundary_rejection.1 (5/100),
   ⟨by simp, le_refl _,
    policies_boundary_rejection.2.1 (-1) [100] (by simp) (le_refl _)⟩,
   ⟨by norm_num,
    policies_boundary_rejection.2.2.1 (-1) (5/100) 10 (by norm_num)⟩,
   ⟨le_refl _,
    policies_boundary_rejection.2.2.2.1 (12/100) 0 (le_refl _)⟩⟩

/-- C5: for a positive period count and a nominal rate at or below
`-1 * compounding_periods` (equivalently a non-positive compounding base),
the interest-rate-conversion policy fails with an `InvalidInput` error
instead of returning a number. -/
theorem ir_rejects_nonpositive_base :
    ∀ (nr : ℚ) (m : ℤ), 0 < m → nr ≤ -1 * (m:ℚ) →
      ∃ msg, InterestRateConversionPolicy.calculate nr m =
        Except.error (CalcError.invalidInput msg) := by
  intro nr m hm hnr
  have hmq : (0:ℚ) < (m:ℚ) := by exact_mod_cast hm
  have hbase : 1 + nr / (m:ℚ) ≤ 0 := by
    have hdiv : nr / (m:ℚ) ≤ -1 := (div_le_iff₀ hmq).mpr hnr
    linarith
  have h1 : ¬ m ≤ 0 := not_le.mpr hm
  exact ⟨"nominal rate makes the compounding base non-positive",
    by simp [InterestRateConversionPolicy.calculate, h1, hbase]⟩

/-- Closed witness for `ir_rejects_nonpositive_base`: at
`nominal_rate = -13`, `compounding_periods = 12` the hypotheses hold
(`-13 ≤ -12`) and the policy fails. -/
theorem ir_rejects_nonpositive_base_witness :
    (0:ℤ) < 12 ∧ (-13:ℚ) ≤ -1 * ((12:ℤ):ℚ) ∧
    ∃ msg, InterestRateConversionPolicy.calculate (-13) 12 =
      Except.error (CalcError.invalidInput msg) :=
  ⟨by norm_num, by norm_num,
    ir_rejects_nonpositive_base (-13) 12 (by norm_num) (by norm_num)⟩

/-- The sequential accumulation loop of the present-value policy computes
the ordered sum of the discounted cash flows: starting at period `t` with
running sum `acc`, it returns `acc + Σ_i cash_flows[i] / (1+r)^(t+i)`. -/
theorem pvAccum_eq_sum (r : ℚ) (l : List ℚ) : ∀ (t : ℕ) (acc : ℚ),
    pvAccum r l t acc =
      acc + ∑ i in Finset.range l.length, l.getD i 0 / (1 + r) ^ (t + i) := by
  induction l with
  | nil =>
    intro t acc
    simp [pvAccum]
  | cons cf rest ih =>
    intro t acc
    simp only [pvAccum]
    rw [ih (t + 1), List.length_cons, Finset.sum_range_succ']
    simp only [List.getD_cons_succ, List.getD_cons_zero]
    have hexp : ∀ i : ℕ, t + 1 + i = t + (i + 1) := fun i => by omega
    simp only [hexp, Nat.add_zero]
    ring

/-- C1 counterexample: the present-value policy's result on the spec's own
concrete scenario `PV(0.05, [100, 200, 300])` equals the claimed formula
`100/1.05 + 200/1.05^2 + 300/1.05^3`, but that value is more than `28`
away from `507.54` (it is `≈ 535.79`), so "approximately 507.54" is false. -/
theorem pv_concrete_value_far_from_claimed :
    PresentValuePolicy.calculate (5/100) [100, 200, 300] =
      Except.ok (100/(1 + 5/100) + 200/(1 + 5/100)^2 + 300/(1 + 5/100)^3) ∧
    |(100/(1 + 5/100) + 200/(1 + 5/100)^2 + 300/(1 + 5/100)^3 : ℚ) - 50754/100| > 28 := by
  constructor
  · simp only [PresentValuePolicy.calculate, pvAccum]
    norm_num
  · rw [abs_sub_comm, abs_of_neg] <;> norm_num

/-- C1 (amended): for every non-empty cash-flow sequence and every
`discount_rate > -1`, the present-value policy returns the sequential
left-to-right sum over `t = 1..N` of `cash_flows[t] / (1+r)^t` — stated as
the ordered sum the left-to-right accumulation `pvAccum` produces — and the
concrete scenario `PV(0.05, [100, 200, 300])` equals
`100/1.05 + 200/1.05^2 + 300/1.05^3 ≈ 535.79` (not `507.54`). -/
theorem pv_calculate_eq_ordered_discounted_sum :
    (∀ (r : ℚ) (cfs : List ℚ), cfs ≠ [] → -1 < r →
        PresentValuePolicy.calculate r cfs =
          Except.ok (∑ t in Finset.range cfs.length, cfs.getD t 0 / (1 + r) ^ (t + 1))) ∧
    (PresentValuePolicy.calculate (5/100) [100, 200, 300] =
        Except.ok (100/(1 + 5/100) + 200/(1 + 5/100)^2 + 300/(1 + 5/100)^3) ∧
      |(100/(1 + 5/100) + 200/(1 + 5/100)^2 + 300/(1 + 5/100)^3 : ℚ) - 53579/100| < 1/100) := by
  refine ⟨?_, ?_, ?_⟩
  · intro r cfs hne hr
    have h2 : ¬ r ≤ -1 := not_le.mpr hr
    simp only [PresentValuePolicy.calculate, List.isEmpty_iff]
    rw [if_neg hne, if_neg h2, pvAccum_eq_sum, zero_add]
    congr 1
    refine Finset.sum_congr rfl fun i _ => ?_
    rw [Nat.add_comm 1 i]
  · simp only [PresentValuePolicy.calculate, pvAccum]
    norm_num
  · rw [abs_lt]
    constructor <;> norm_num

/-- Closed witness for `pv_calculate_eq_ordered_discounted_sum`: the
hypotheses hold at `r = 0.05`, `cash_flows = [100, 200, 300]`, and the
formula part applies there. -/
theorem pv_calculate_eq_ordered_discounted_sum_witness :
    ([100, 200, 300] : List ℚ) ≠ [] ∧ (-1:ℚ) < 5/100 ∧
    PresentValuePolicy.calculate (5/100) [100, 200, 300] =
      Except.ok (∑ t in Finset.range ([100, 200, 300] : List ℚ).length,
        ([100, 200, 300] : List ℚ).getD t 0 / (1 + 5/100) ^ (t + 1)) :=
  ⟨by simp, by norm_num,
    pv_calculate_eq_ordered_discounted_sum.1 (5/100) [100, 200, 300] (by simp) (by norm_num)⟩

/-- One compounding step of EAR monotonicity: for a positive rate `x`,
`(1 + x/n)^n ≤ (1 + x/(n+1))^(n+1)`.  Proved with Bernoulli's inequality
applied to `1 - t` where `t = x / ((n+1)(n+x))`. -/
theorem one_add_div_pow_le_succ (x : ℚ) (hx : 0 < x) (n : ℕ) (hn : 1 ≤ n) :
    (1 + x / (n:ℚ)) ^ n ≤ (1 + x / ((n:ℚ) + 1)) ^ (n + 1) := by
  have hnpos : 0 < n := hn
  have hN : (0:ℚ) < (n:ℚ) := by exact_mod_cast hnpos
  set N : ℚ := (n:ℚ) with hNdef
  have hNx : 0 < N + x := by linarith
  have hN1 : 0 < N + 1 := by linarith
  set a : ℚ := 1 + x / N with hadef
  set b : ℚ := 1 + x / (N + 1) with hbdef
  set t : ℚ := x / ((N + 1) * (N + x)) with htdef
  have hdivpos : 0 < x / N := div_pos hx hN
  have ha0 : 0 < a := by rw [hadef]; linarith
  have ht0 : 0 < t := div_pos hx (by positivity)
  have ht1 : t ≤ 1 := by
    rw [htdef, div_le_one (by positivity)]
    nlinarith
  have hb_eq : b = a * (1 - t) := by
    rw [hbdef, hadef, htdef]
    field_simp
    ring
  have hbern : 1 + (N + 1) * (-t) ≤ (1 + (-t)) ^ (n + 1) := by
    have h2 : (-2:ℚ) ≤ -t := by linarith
    have hb := one_add_mul_le_pow h2 (n + 1)
    push_cast at hb
    exact hb
  have hkey : 1 + (N + 1) * (-t) = 1 / a := by
    rw [hadef, htdef]
    field_simp
    ring
  calc (a:ℚ) ^ n = a ^ (n + 1) * (1 / a) := by
        rw [pow_succ]
        field_simp
      _ = a ^ (n + 1) * (1 + (N + 1) * (-t)) := by rw [hkey]
      _ ≤ a ^ (n + 1) * (1 + (-t)) ^ (n + 1) :=
        mul_le_mul_of_nonneg_left hbern (le_of_lt (pow_pos ha0 _))
      _ = (a * (1 + (-t))) ^ (n + 1) := (mul_pow _ _ _).symm
      _ = b ^ (n + 1) := by rw [hb_eq]; ring_nf

/-- For a positive rate `x`, the sequence `n ↦ (1 + x/n)^n` is monotone on
`n ≥ 1`. -/
theorem one_add_div_pow_mono (x : ℚ) (hx : 0 < x) :
    ∀ (n m : ℕ), 1 ≤ n → n ≤ m → (1 + x / (n:ℚ)) ^ n ≤ (1 + x / (m:ℚ)) ^ m := by
  intro n m hn hnm
  induction m, hnm using Nat.le_induction with
  | base => exact le_refl _
  | succ m hm ih =>
    refine le_trans ih ?_
    have hstep := one_add_div_pow_le_succ x hx m (le_trans hn hm)
    push_cast
    exact hstep

/-- C7: for a fixed nominal rate `> 0` and positive integer period counts
`m1 ≤ m2`, the interest-rate-conversion policy succeeds on both and the
computed effective annual rate never decreases:
`calculate(nr, m1) ≤ calculate(nr, m2)`. -/
theorem ir_ear_monotone :
    ∀ (nr : ℚ), 0 < nr → ∀ (m1 m2 : ℤ), 0 < m1 → m1 ≤ m2 →
      ∃ v1 v2, InterestRateConversionPolicy.calculate nr m1 = Except.ok v1 ∧
        InterestRateConversionPolicy.calculate nr m2 = Except.ok v2 ∧ v1 ≤ v2 := by
  intro nr hnr m1 m2 hm1 hm12
  have hm2 : 0 < m2 := lt_of_lt_of_le hm1 hm12
  lift m1 to ℕ using hm1.le with n1
  lift m2 to ℕ using hm2.le with n2
  have hn1 : 1 ≤ n1 := by exact_mod_cast hm1
  have hn2 : 1 ≤ n2 := by exact_mod_cast hm2
  have hn12 : n1 ≤ n2 := by exact_mod_cast hm12
  have hN1 : (0:ℚ) < (n1:ℚ) := by exact_mod_cast hn1
  have hN2 : (0:ℚ) < (n2:ℚ) := by exact_mod_cast hn2
  have hb1 : 0 < 1 + nr / (n1:ℚ) := by
    have := div_pos hnr hN1
    linarith
  have hb2 : 0 < 1 + nr / (n2:ℚ) := by
    have := div_pos hnr hN2
    linarith
  refine ⟨(1 + nr / ((n1:ℤ):ℚ)) ^ ((n1:ℤ)) - 1, (1 + nr / ((n2:ℤ):ℚ)) ^ ((n2:ℤ)) - 1,
    ?_, ?_, ?_⟩
  · simp [InterestRateConversionPolicy.calculate, not_le.mpr hm1, not_le.mpr hb1]
  · simp [InterestRateConversionPolicy.calculate, not_le.mpr hm2, not_le.mpr hb2]
  · have hmono := one_add_div_pow_mono nr hnr n1 n2 hn1 hn12
    have e1 : (1 + nr / ((n1:ℤ):ℚ)) ^ ((n1:ℤ)) = (1 + nr / (n1:ℚ)) ^ n1 := by
      push_cast
      exact zpow_natCast _ n1
    have e2 : (1 + nr / ((n2:ℤ):ℚ)) ^ ((n2:ℤ)) = (1 + nr / (n2:ℚ)) ^ n2 := by
      push_cast
      exact zpow_natCast _ n2
    rw [e1, e2]
    exact sub_le_sub_right hmono 1

/-- Closed witness for `ir_ear_monotone`: the hypotheses hold at
`nominal_rate = 0.06`, `m1 = 2`, `m2 = 4` (semi-annual versus quarterly
compounding of a 6% nominal rate). -/
theorem ir_ear_monotone_witness :
    (0:ℚ) < 6/100 ∧ (0:ℤ) < 2 ∧ (2:ℤ) ≤ 4 ∧
    (∃ v1 v2, InterestRateConversionPolicy.calculate (6/100) 2 = Except.ok v1 ∧
      InterestRateConversionPolicy.calculate (6/100) 4 = Except.ok v2 ∧ v1 ≤ v2) :=
  ⟨by norm_num, by norm_num, by norm_num,
    ir_ear_monotone (6/100) (by norm_num) 2 4 (by norm_num) (by norm_num)⟩

/-- The status code and the output slot of `pv_calculator_calculate` on a
non-null handle do not depend on the handle's stored `last_error` (the
wrapped `Calculator` is stateless). -/
theorem pv_calculate_state_independent (c c' : PVCalculator_t) (r : ℚ)
    (cf : Option (List ℚ)) (n : ℕ) (res : Option ℚ) :
    (pv_calculator_calculate (some c) r cf n res).1 =
      (pv_calculator_calculate (some c') r cf n res).1 ∧
    (pv_calculator_calculate (some c) r cf n res).2.2 =
      (pv_calculator_calculate (some c') r cf n res).2.2 := by
  cases cf with
  | none => simp [pv_calculator_calculate]
  | some cfs =>
    cases res with
    | none => simp [pv_calculator_calculate]
    | some v =>
      by_cases hn : n = 0
      · simp [pv_calculator_calculate, hn]
      · rcases h : PresentValuePolicy.calculate r (cfs.take n) with ⟨⟨msg⟩⟩ | val
        · simp [pv_calculator_calculate, hn, h]
        · simp [pv_calculator_calculate, hn, h]

/-- A call on a non-null `pv` handle always returns a non-null handle state. -/
theorem pv_handle_stays_some (c : PVCalculator_t) (r : ℚ)
    (cf : Option (List ℚ)) (n : ℕ) (res : Option ℚ) :
    ∃ c', (pv_calculator_calculate (some c) r cf n res).2.1 = some c' := by
  cases cf with
  | none => exact ⟨⟨"Invalid arguments: null pointer or empty cash flows"⟩, by simp [pv_calculator_calculate]⟩
  | some cfs =>
    cases res with
    | none => exact ⟨⟨"Invalid arguments: null pointer or empty cash flows"⟩, by simp [pv_calculator_calculate]⟩
    | some v =>
      by_cases hn : n = 0
      · exact ⟨⟨"Invalid arguments: null pointer or empty cash flows"⟩, by simp [pv_calculator_calculate, hn]⟩
      · rcases h : PresentValuePolicy.calculate r (cfs.take n) with ⟨⟨msg⟩⟩ | val
        · exact ⟨⟨msg⟩, by simp [pv_calculator_calculate, hn, h]⟩
        · exact ⟨⟨""⟩, by simp [pv_calculator_calculate, hn, h]⟩

/-- `fv` analogue of `pv_calculate_state_independent`. -/
theorem fv_calculate_state_independent (c c' : FVCalculator_t) (p r : ℚ)
    (m : ℤ) (res : Option ℚ) :
    (fv_calculator_calculate (some c) p r m res).1 =
      (fv_calculator_calculate (some c') p r m res).1 ∧
    (fv_calculator_calculate (some c) p r m res).2.2 =
      (fv_calculator_calculate (some c') p r m res).2.2 := by
  cases res with
  | none => simp [fv_calculator_calculate]
  | some v =>
    rcases h : FutureValuePolicy.calculate p r m with ⟨⟨msg⟩⟩ | val
    · simp [fv_calculator_calculate, h]
    · simp [fv_calculator_calculate, h]

/-- `fv` analogue of `pv_handle_stays_some`. -/
theorem fv_handle_stays_some (c : FVCalculator_t) (p r : ℚ) (m : ℤ)
    (res : Option ℚ) :
    ∃ c', (fv_calculator_calculate (some c) p r m res).2.1 = some c' := by
  cases res with
  | none => exact ⟨⟨"Invalid arguments: null pointer"⟩, by simp [fv_calculator_calculate]⟩
  | some v =>
    rcases h : FutureValuePolicy.calculate p r m with ⟨⟨msg⟩⟩ | val
    · exact ⟨⟨msg⟩, by simp [fv_calculator_calculate, h]⟩
    · exact ⟨⟨""⟩, by simp [fv_calculator_calculate, h]⟩

/-- `ir` analogue of `pv_calculate_state_independent`. -/
theorem ir_calculate_state_independent (c c' : IRCalculator_t) (nr : ℚ)
    (m : ℤ) (res : Option ℚ) :
    (ir_calculator_calculate (some c) nr m res).1 =
      (ir_calculator_calculate (some c') nr m res).1 ∧
    (ir_calculator_calculate (some c) nr m res).2.2 =
      (ir_calculator_calculate (some c') nr m res).2.2 := by
  cases res with
  | none => simp [ir_calculator_calculate]
  | some v =>
    rcases h : InterestRateConversionPolicy.calculate nr m with ⟨⟨msg⟩⟩ | val
    · simp [ir_calculator_calculate, h]
    · simp [ir_calculator_calculate, h]

/-- `ir` analogue of `pv_handle_stays_some`. -/
theorem ir_handle_stays_some (c : IRCalculator_t) (nr : ℚ) (m : ℤ)
    (res : Option ℚ) :
    ∃ c', (ir_calculator_calculate (some c) nr m res).2.1 = some c' := by
  cases res with
  | none => exact ⟨⟨"Invalid arguments: null pointer"⟩, by simp [ir_calculator_calculate]⟩
  | some v =>
    rcases h : InterestRateConversionPolicy.calculate nr m with ⟨⟨msg⟩⟩ | val
    · exact ⟨⟨msg⟩, by simp [ir_calculator_calculate, h]⟩
    · exact ⟨⟨""⟩, by simp [ir_calculator_calculate, h]⟩


/-- C8: boundary contract of `pv_calculator_calculate`.  When the handle,
cash-flow pointer or result pointer is null, or `n_cash_flows` is zero, the
call returns a non-zero status, and on a non-null handle it stores the
dedicated message "Invalid arguments: null pointer or empty cash flows",
distinct from both core validation messages.  Otherwise a successful core
computation yields status `0`, writes the value to the output slot and
clears the stored error, and a core validation failure yields status `-1`
and stores the core's message. -/
theorem pv_wrapper_contract :
    (∀ (calcH : Option PVCalculator_t) (r : ℚ) (cfs : Option (List ℚ)) (n : ℕ)
        (res : Option ℚ), (calcH = none ∨ cfs = none ∨ res = none ∨ n = 0) →
        (pv_calculator_calculate calcH r cfs n res).1 ≠ 0 ∧
        ∀ c : PVCalculator_t, calcH = some c →
          (pv_calculator_calculate calcH r cfs n res).2.1 =
            some ⟨"Invalid arguments: null pointer or empty cash flows"⟩ ∧
          ("Invalid arguments: null pointer or empty cash flows" ≠
            "cash flows cannot be empty" ∧
           "Invalid arguments: null pointer or empty cash flows" ≠
            "discount rate must be greater than -1")) ∧
    (∀ (c : PVCalculator_t) (r : ℚ) (cfs : List ℚ) (n : ℕ) (res : ℚ), n ≠ 0 →
        (∀ v, PresentValuePolicy.calculate r (cfs.take n) = Except.ok v →
          pv_calculator_calculate (some c) r (some cfs) n (some res) =
            (0, some ⟨""⟩, some v)) ∧
        (∀ msg, PresentValuePolicy.calculate r (cfs.take n) =
            Except.error (CalcError.invalidInput msg) →
          pv_calculator_calculate (some c) r (some cfs) n (some res) =
            (-1, some ⟨msg⟩, some res))) := by
  constructor
  · intro calcH r cfs n res hnull
    have hmsg1 : ("Invalid arguments: null pointer or empty cash flows" : String) ≠
        "cash flows cannot be empty" := by decide
    have hmsg2 : ("Invalid arguments: null pointer or empty cash flows" : String) ≠
        "discount rate must be greater than -1" := by decide
    cases calcH with
    | none =>
      refine ⟨by simp [pv_calculator_calculate], ?_⟩
      intro c hc
      exact absurd hc (by simp)
    | some c0 =>
      have hkey : (pv_calculator_calculate (some c0) r cfs n res).1 ≠ 0 ∧
          (pv_calculator_calculate (some c0) r cfs n res).2.1 =
            some ⟨"Invalid arguments: null pointer or empty cash flows"⟩ := by
        rcases hnull with h | h | h | h
        · exact absurd h (by simp)
        · subst h
          simp [pv_calculator_calculate]
        · subst h
          cases cfs <;> simp [pv_calculator_calculate]
        · subst h
          cases cfs with
          | none => simp [pv_calculator_calculate]
          | some l =>
            cases res with
            | none => simp [pv_calculator_calculate]
            | some v => simp [pv_calculator_calculate]
      exact ⟨hkey.1, fun c _ => ⟨hkey.2, hmsg1, hmsg2⟩⟩
  · intro c r cfs n res hn
    constructor
    · intro v hv
      simp [pv_calculator_calculate, hn, hv]
    · intro msg hmsg
      simp [pv_calculator_calculate, hn, hmsg]

/-- Closed witness for `pv_wrapper_contract`: a call with a null cash-flow
pointer is rejected with non-zero status, and a valid call
`PV(0, [100])` through the wrapper succeeds with status `0`, output `100`
and cleared error. -/
theorem pv_wrapper_contract_witness :
    ((some (⟨"x"⟩ : PVCalculator_t) = none ∨ (none : Option (List ℚ)) = none ∨
        (some (0:ℚ) : Option ℚ) = none ∨ (1:ℕ) = 0) ∧
      (pv_calculator_calculate (some ⟨"x"⟩) 0 none 1 (some 0)).1 ≠ 0) ∧
    ((1:ℕ) ≠ 0 ∧
      PresentValuePolicy.calculate 0 (([100] : List ℚ).take 1) = Except.ok 100 ∧
      pv_calculator_calculate (some ⟨"y"⟩) 0 (some [100]) 1 (some 7) =
        (0, some ⟨""⟩, some 100)) := by
  have hv : PresentValuePolicy.calculate 0 (([100] : List ℚ).take 1) = Except.ok 100 := by
    simp only [List.take, PresentValuePolicy.calculate, pvAccum]
    norm_num
  refine ⟨⟨Or.inr (Or.inl rfl), ?_⟩, ?_, hv, ?_⟩
  · exact (pv_wrapper_contract.1 (some ⟨"x"⟩) 0 none 1 (some 0) (Or.inr (Or.inl rfl))).1
  · decide
  · exact (pv_wrapper_contract.2 ⟨"y"⟩ 0 [100] 1 7 (by decide)).1 100 hv

/-- C9: a failing call leaves the calculator usable.  For each of the three
wrappers: after any call on a live handle that returned a non-zero status,
a further call on the resulting handle with inputs that succeed on a fresh
handle (`..._create`) returns status `0` and the same output-slot contents
as the fresh handle would — the failure changed at most the stored error
message. -/
theorem wrapper_failure_preserves_usability :
    (∀ (c : PVCalculator_t) (r1 : ℚ) (cf1 : Option (List ℚ)) (n1 : ℕ)
        (res1 : Option ℚ),
        (pv_calculator_calculate (some c) r1 cf1 n1 res1).1 ≠ 0 →
        ∀ (r2 : ℚ) (cf2 : Option (List ℚ)) (n2 : ℕ) (res2 : Option ℚ),
          (pv_calculator_calculate pv_calculator_create r2 cf2 n2 res2).1 = 0 →
          (pv_calculator_calculate
              ((pv_calculator_calculate (some c) r1 cf1 n1 res1).2.1)
              r2 cf2 n2 res2).1 = 0 ∧
          (pv_calculator_calculate
              ((pv_calculator_calculate (some c) r1 cf1 n1 res1).2.1)
              r2 cf2 n2 res2).2.2 =
            (pv_calculator_calculate pv_calculator_create r2 cf2 n2 res2).2.2) ∧
    (∀ (c : FVCalculator_t) (p1 r1 : ℚ) (m1 : ℤ) (res1 : Option ℚ),
        (fv_calculator_calculate (some c) p1 r1 m1 res1).1 ≠ 0 →
        ∀ (p2 r2 : ℚ) (m2 : ℤ) (res2 : Option ℚ),
          (fv_calculator_calculate fv_calculator_create p2 r2 m2 res2).1 = 0 →
          (fv_calculator_calculate
              ((fv_calculator_calculate (some c) p1 r1 m1 res1).2.1)
              p2 r2 m2 res2).1 = 0 ∧
          (fv_calculator_calculate
              ((fv_calculator_calculate (some c) p1 r1 m1 res1).2.1)
              p2 r2 m2 res2).2.2 =
            (fv_calculator_calculate fv_calculator_create p2 r2 m2 res2).2.2) ∧
    (∀ (c : IRCalculator_t) (nr1 : ℚ) (m1 : ℤ) (res1 : Option ℚ),
        (ir_calculator_calculate (some c) nr1 m1 res1).1 ≠ 0 →
        ∀ (nr2 : ℚ) (m2 : ℤ) (res2 : Option ℚ),
          (ir_calculator_calculate ir_calculator_create nr2 m2 res2).1 = 0 →
          (ir_calculator_calculate
              ((ir_calculator_calculate (some c) nr1 m1 res1).2.1)
              nr2 m2 res2).1 = 0 ∧
          (ir_calculator_calculate
              ((ir_calculator_calculate (some c) nr1 m1 res1).2.1)
              nr2 m2 res2).2.2 =
            (ir_calculator_calculate ir_calculator_create nr2 m2 res2).2.2) := by
  refine ⟨?_, ?_, ?_⟩
  · intro c r1 cf1 n1 res1 _ r2 cf2 n2 res2 hok
    obtain ⟨c', hc'⟩ := pv_handle_stays_some c r1 cf1 n1 res1
    rw [hc']
    have hind := pv_calculate_state_independent c' ⟨""⟩ r2 cf2 n2 res2
    have hcreate : pv_calculator_create = some (⟨""⟩ : PVCalculator_t) := rfl
    rw [hcreate] at hok ⊢
    exact ⟨hind.1.trans hok, hind.2⟩
  · intro c p1 r1 m1 res1 _ p2 r2 m2 res2 hok
    obtain ⟨c', hc'⟩ := fv_handle_stays_some c p1 r1 m1 res1
    rw [hc']
    have hind := fv_calculate_state_independent c' ⟨""⟩ p2 r2 m2 res2
    have hcreate : fv_calculator_create = some (⟨""⟩ : FVCalculator_t) := rfl
    rw [hcreate] at hok ⊢
    exact ⟨hind.1.trans hok, hind.2⟩
  · intro c nr1 m1 res1 _ nr2 m2 res2 hok
    obtain ⟨c', hc'⟩ := ir_handle_stays_some c nr1 m1 res1
    rw [hc']
    have hind := ir_calculate_state_independent c' ⟨""⟩ nr2 m2 res2
    have hcreate : ir_calculator_create = some (⟨""⟩ : IRCalculator_t) := rfl
    rw [hcreate] at hok ⊢
    exact ⟨hind.1.trans hok, hind.2⟩

/-- Closed witness for `wrapper_failure_preserves_usability`: a `pv` call
with `n_cash_flows = 0` fails on a handle with stale state, after which
`PV(0, [100])` still succeeds with the same output a fresh handle gives;
similarly for `fv` (null result pointer, then `FV(1000, 0, 1)`) and `ir`
(null result pointer, then `IR(0, 1)` with a positive base). -/
theorem wrapper_failure_preserves_usability_witness :
    ((pv_calculator_calculate (some ⟨"stale"⟩) 0 (some [100]) 0 (some 0)).1 ≠ 0 ∧
      (pv_calculator_calculate pv_calculator_create 0 (some [100]) 1 (some 0)).1 = 0 ∧
      (pv_calculator_calculate
          ((pv_calculator_calculate (some ⟨"stale"⟩) 0 (some [100]) 0 (some 0)).2.1)
          0 (some [100]) 1 (some 0)).1 = 0 ∧
      (pv_calculator_calculate
          ((pv_calculator_calculate (some ⟨"stale"⟩) 0 (some [100]) 0 (some 0)).2.1)
          0 (some [100]) 1 (some 0)).2.2 =
        (pv_calculator_calculate pv_calculator_create 0 (some [100]) 1 (some 0)).2.2) ∧
    ((fv_calculator_calculate (some ⟨"stale"⟩) 1000 0 1 none).1 ≠ 0 ∧
      (fv_calculator_calculate fv_calculator_create 1000 0 1 (some 0)).1 = 0 ∧
      (fv_calculator_calculate
          ((fv_calculator_calculate (some ⟨"stale"⟩) 1000 0 1 none).2.1)
          1000 0 1 (some 0)).1 = 0 ∧
      (fv_calculator_calculate
          ((fv_calculator_calculate (some ⟨"stale"⟩) 1000 0 1 none).2.1)
          1000 0 1 (some 0)).2.2 =
        (fv_calculator_calculate fv_calculator_create 1000 0 1 (some 0)).2.2) ∧
    ((ir_calculator_calculate (some ⟨"stale"⟩) 0 1 none).1 ≠ 0 ∧
      (ir_calculator_calculate ir_calculator_create 0 1 (some 0)).1 = 0 ∧
      (ir_calculator_calculate
          ((ir_calculator_calculate (some ⟨"stale"⟩) 0 1 none).2.1)
          0 1 (some 0)).1 = 0 ∧
      (ir_calculator_calculate
          ((ir_calculator_calculate (some ⟨"stale"⟩) 0 1 none).2.1)
          0 1 (some 0)).2.2 =
        (ir_calculator_calculate ir_calculator_create 0 1 (some 0)).2.2) := by
  have hpvfail : (pv_calculator_calculate (some ⟨"stale"⟩) 0 (some [100]) 0 (some 0)).1 ≠ 0 := by
    simp [pv_calculator_calculate]
  have hpvok : (pv_calculator_calculate pv_calculator_create 0 (some [100]) 1 (some 0)).1 = 0 := by
    have hv : PresentValuePolicy.calculate 0 [100] = Except.ok 100 := by
      simp only [PresentValuePolicy.calculate, pvAccum]
      norm_num
    simp [pv_calculator_create, pv_calculator_calculate, hv]
  have hfvfail : (fv_calculator_calculate (some ⟨"stale"⟩) 1000 0 1 none).1 ≠ 0 := by
    simp [fv_calculator_calculate]
  have hfvok : (fv_calculator_calculate fv_calculator_create 1000 0 1 (some 0)).1 = 0 := by
    have hv : FutureValuePolicy.calculate 1000 0 1 = Except.ok 1000 := by
      simp only [FutureValuePolicy.calculate]
      norm_num
    simp [fv_calculator_create, fv_calculator_calculate, hv]
  have hirfail : (ir_calculator_calculate (some ⟨"stale"⟩) 0 1 none).1 ≠ 0 := by
    simp [ir_calculator_calculate]
  have hirok : (ir_calculator_calculate ir_calculator_create 0 1 (some 0)).1 = 0 := by
    have hv : InterestRateConversionPolicy.calculate 0 1 = Except.ok 0 := by
      simp only [InterestRateConversionPolicy.calculate]
      norm_num
    simp [ir_calculator_create, ir_calculator_calculate, hv]
  have hpv := wrapper_failure_preserves_usability.1 ⟨"stale"⟩ 0 (some [100]) 0 (some 0)
    hpvfail 0 (some [100]) 1 (some 0) hpvok
  have hfv := wrapper_failure_preserves_usability.2.1 ⟨"stale"⟩ 1000 0 1 none
    hfvfail 1000 0 1 (some 0) hfvok
  have hir := wrapper_failure_preserves_usability.2.2 ⟨"stale"⟩ 0 1 none
    hirfail 0 1 (some 0) hirok
  exact ⟨⟨hpvfail, hpvok, hpv.1, hpv.2⟩, ⟨hfvfail, hfvok, hfv.1, hfv.2⟩,
    ⟨hirfail, hirok, hir.1, hir.2⟩⟩

/-- C10: on every failing call (non-zero status) of any of the three
wrapper entry points, the output slot keeps its previous contents: the
wrapper assigns `*result` only after the core computation has succeeded. -/
theorem wrapper_failure_preserves_result_slot :
    (∀ (calcH : Option PVCalculator_t) (r : ℚ) (cfs : Option (List ℚ)) (n : ℕ)
        (res : Option ℚ), (pv_calculator_calculate calcH r cfs n res).1 ≠ 0 →
        (pv_calculator_calculate calcH r cfs n res).2.2 = res) ∧
    (∀ (calcH : Option FVCalculator_t) (p r : ℚ) (m : ℤ) (res : Option ℚ),
        (fv_calculator_calculate calcH p r m res).1 ≠ 0 →
        (fv_calculator_calculate calcH p r m res).2.2 = res) ∧
    (∀ (calcH : Option IRCalculator_t) (nr : ℚ) (m : ℤ) (res : Option ℚ),
        (ir_calculator_calculate calcH nr m res).1 ≠ 0 →
        (ir_calculator_calculate calcH nr m res).2.2 = res) := by
  refine ⟨?_, ?_, ?_⟩
  · intro calcH r cfs n res hne
    cases calcH with
    | none => simp [pv_calculator_calculate]
    | some c =>
      cases cfs with
      | none => simp [pv_calculator_calculate]
      | some l =>
        cases res with
        | none => simp [pv_calculator_calculate]
        | some v =>
          by_cases hn : n = 0
          · simp [pv_calculator_calculate, hn]
          · rcases h : PresentValuePolicy.calculate r (l.take n) with ⟨⟨msg⟩⟩ | val
            · simp [pv_calculator_calculate, hn, h]
            · exact absurd (by simp [pv_calculator_calculate, hn, h]) hne
  · intro calcH p r m res hne
    cases calcH with
    | none => simp [fv_calculator_calculate]
    | some c =>
      cases res with
      | none => simp [fv_calculator_calculate]
      | some v =>
        rcases h : FutureValuePolicy.calculate p r m with ⟨⟨msg⟩⟩ | val
        · simp [fv_calculator_calculate, h]
        · exact absurd (by simp [fv_calculator_calculate, h]) hne
  · intro calcH nr m res hne
    cases calcH with
    | none => simp [ir_calculator_calculate]
    | some c =>
      cases res with
      | none => simp [ir_calculator_calculate]
      | some v =>
        rcases h : InterestRateConversionPolicy.calculate nr m with ⟨⟨msg⟩⟩ | val
        · simp [ir_calculator_calculate, h]
        · exact absurd (by simp [ir_calculator_calculate, h]) hne

/-- Closed witness for `wrapper_failure_preserves_result_slot`: a `pv` call
with `n_cash_flows = 0`, an `fv` call with a negative principal, and an
`ir` call with zero compounding periods all fail and leave their output
slots (`some 7`, `some 3`, `some 5`) untouched. -/
theorem wrapper_failure_preserves_result_slot_witness :
    ((pv_calculator_calculate (some ⟨"a"⟩) 0 (some [100]) 0 (some 7)).1 ≠ 0 ∧
      (pv_calculator_calculate (some ⟨"a"⟩) 0 (some [100]) 0 (some 7)).2.2 = some 7) ∧
    ((fv_calculator_calculate (some ⟨"b"⟩) (-1) 0 1 (some 3)).1 ≠ 0 ∧
      (fv_calculator_calculate (some ⟨"b"⟩) (-1) 0 1 (some 3)).2.2 = some 3) ∧
    ((ir_calculator_calculate (some ⟨"c"⟩) (12/100) 0 (some 5)).1 ≠ 0 ∧
      (ir_calculator_calculate (some ⟨"c"⟩) (12/100) 0 (some 5)).2.2 = some 5) := by
  have h1 : (pv_calculator_calculate (some ⟨"a"⟩) 0 (some [100]) 0 (some 7)).1 ≠ 0 := by
    simp [pv_calculator_calculate]
  have h2 : (fv_calculator_calculate (some ⟨"b"⟩) (-1) 0 1 (some 3)).1 ≠ 0 := by
    have hv : FutureValuePolicy.calculate (-1) 0 1 =
        Except.error (CalcError.invalidInput "principal cannot be negative") := by
      simp only [FutureValuePolicy.calculate]
      norm_num
    simp [fv_calculator_calculate, hv]
  have h3 : (ir_calculator_calculate (some ⟨"c"⟩) (12/100) 0 (some 5)).1 ≠ 0 := by
    have hv : InterestRateConversionPolicy.calculate (12/100) 0 =
        Except.error (CalcError.invalidInput "compounding periods must be positive") := by
      simp [InterestRateConversionPolicy.calculate]
    simp [ir_calculator_calculate, hv]
  exact ⟨⟨h1, wrapper_failure_preserves_result_slot.1 _ _ _ _ _ h1⟩,
    ⟨h2, wrapper_failure_preserves_result_slot.2.1 _ _ _ _ _ h2⟩,
    ⟨h3, wrapper_failure_preserves_result_slot.2.2 _ _ _ _ h3⟩⟩
